import Mathlib

/-!
# Verification of the DrizzleDE X11 compositor core

Shallow embedding of `src/x11_compositor.cpp` / `src/x11_compositor.hpp`
(the `X11Compositor` class): surface registry, event dispatch, capture
pipeline and input injection.  X11 protocol round-trips
(`XGetWindowAttributes`, property reads, `XTranslateCoordinates`,
`XKeysymToKeycode`, pixmap/image acquisition) are modelled as explicit
inputs; protocol sends (`XDamageSubtract`, `XSendEvent`) are modelled as
explicit outputs.
-/

namespace DrizzleDE

/-- X11 `InputOnly` window class constant. -/
def InputOnly : Nat := 2

/-- X11 `IsViewable` map state constant. -/
def IsViewable : Nat := 2

/-- The subset of `XWindowAttributes` the compositor reads. -/
structure XWindowAttributes where
  x : Int
  y : Int
  width : Int
  height : Int
  c_class : Nat
  map_state : Nat
  deriving Repr, DecidableEq

/-- Results of the synchronous protocol queries `add_window` /
`should_track_window` issue against a candidate handle:
`XGetWindowAttributes` (`none` when the call fails), the `WM_STATE`
property probe (`true` when the property read succeeds with a non-`None`
type), `XFetchName`, `XGetClassHint`, the `_NET_WM_PID` property, the
`WM_TRANSIENT_FOR` property, and the damage handle `XDamageCreate` would
return. -/
structure WindowQueryResult where
  attrs : Option XWindowAttributes
  has_wm_state : Bool
  wm_name : String
  wm_class : String
  pid : Option Int
  transient_for : Option Nat
  new_damage : Nat
  deriving Repr, DecidableEq

/-- Mirrors `struct X11Window` of `x11_compositor.hpp`. -/
structure X11Window where
  id : Int
  xwindow : Nat
  width : Int
  height : Int
  x : Int
  y : Int
  damage : Nat
  mapped : Bool
  image_data : List Nat
  has_image : Bool
  wm_class : String
  wm_name : String
  pid : Int
  parent_window_id : Int
  deriving Repr, DecidableEq

/-- The mutable compositor state relevant to the registry: the id-keyed
window map, the handle-keyed reverse lookup, the id counter and the two
extension-availability flags.  `std::map<int, X11Window*>` iterates in
ascending id order; since issued ids are increasing, a list in insertion
order is the same iteration order. -/
structure CompositorState where
  windows : List X11Window
  xwindow_to_id : List (Nat × Int)
  next_window_id : Int
  composite_available : Bool
  damage_available : Bool
  deriving Repr, DecidableEq

/-- `xwindow_to_id.find(xwin)`. -/
def lookupXwin (s : CompositorState) (xwin : Nat) : Option Int :=
  (s.xwindow_to_id.find? (fun p => p.1 == xwin)).map (·.2)

/-- `windows.find(window_id)`. -/
def findWindow (s : CompositorState) (window_id : Int) : Option X11Window :=
  s.windows.find? (fun w => w.id == window_id)

/-- Embeds `X11Compositor::should_track_window` (x11_compositor.cpp:315).
Returns `false` when the attribute query fails, for `InputOnly` windows
and for windows smaller than 10×10; otherwise `true` when the `WM_STATE`
property is present, else `true` exactly for viewable windows. -/
def should_track_window (q : WindowQueryResult) : Bool :=
  match q.attrs with
  | none => false
  | some attrs =>
    if attrs.c_class == InputOnly then false
    else if attrs.width < 10 || attrs.height < 10 then false
    else if q.has_wm_state then true
    else attrs.map_state == IsViewable

/-- The `X11Window` record `add_window` builds (x11_compositor.cpp:364):
the next id, the queried geometry and visibility, `-1` defaults for pid
and parent (the parent resolves through the reverse lookup when the
`WM_TRANSIENT_FOR` target is tracked), and a damage object exactly when
the damage extension is available. -/
def mkWindow (s : CompositorState) (xwin : Nat) (q : WindowQueryResult)
    (attrs : XWindowAttributes) : X11Window :=
  { id := s.next_window_id
    xwindow := xwin
    width := attrs.width
    height := attrs.height
    x := attrs.x
    y := attrs.y
    damage := if s.damage_available then q.new_damage else 0
    mapped := attrs.map_state == IsViewable
    image_data := []
    has_image := false
    wm_class := q.wm_class
    wm_name := q.wm_name
    pid := q.pid.getD (-1)
    parent_window_id :=
      match q.transient_for with
      | some parent_xwin =>
        match lookupXwin s parent_xwin with
        | some p => p
        | none => -1
      | none => -1 }

/-- Embeds `X11Compositor::add_window` (x11_compositor.cpp:352): no-op when
the handle is already tracked or `XGetWindowAttributes` fails; otherwise
allocates the next id, builds the `X11Window` record from the query
results, and inserts into both maps. -/
def add_window (s : CompositorState) (xwin : Nat) (q : WindowQueryResult) :
    CompositorState :=
  if (lookupXwin s xwin).isSome then s
  else
    match q.attrs with
    | none => s
    | some attrs =>
      { s with windows := s.windows ++ [mkWindow s xwin q attrs]
               xwindow_to_id := s.xwindow_to_id ++ [(xwin, s.next_window_id)]
               next_window_id := s.next_window_id + 1 }

/-- Embeds `X11Compositor::remove_window` (x11_compositor.cpp:445): no-op
for an untracked handle; otherwise destroys the damage object (a protocol
side effect, not registry state) and erases the entry from both maps. -/
def remove_window (s : CompositorState) (xwin : Nat) : CompositorState :=
  match lookupXwin s xwin with
  | none => s
  | some window_id =>
    { s with windows := s.windows.filter (fun w => !(w.id == window_id))
             xwindow_to_id := s.xwindow_to_id.filter (fun p => !(p.1 == xwin)) }

/-- In-place mutation of the window found by id, as the handlers do via
`windows[it->second]`. -/
def updateWindow (s : CompositorState) (window_id : Int)
    (f : X11Window → X11Window) : CompositorState :=
  { s with windows := s.windows.map (fun w => if w.id == window_id then f w else w) }

/-- Embeds `X11Compositor::handle_create_notify` (x11_compositor.cpp:472). -/
def handle_create_notify (s : CompositorState) (xwin : Nat)
    (q : WindowQueryResult) : CompositorState :=
  if should_track_window q then add_window s xwin q else s

/-- Embeds `X11Compositor::handle_destroy_notify` (x11_compositor.cpp:478). -/
def handle_destroy_notify (s : CompositorState) (xwin : Nat) : CompositorState :=
  remove_window s xwin

/-- Embeds `X11Compositor::handle_map_notify` (x11_compositor.cpp:482):
sets `mapped := true` when the handle is tracked; otherwise adds the
window if the tracking filter now passes. -/
def handle_map_notify (s : CompositorState) (xwin : Nat)
    (q : WindowQueryResult) : CompositorState :=
  match lookupXwin s xwin with
  | some window_id => updateWindow s window_id (fun w => { w with mapped := true })
  | none => if should_track_window q then add_window s xwin q else s

/-- Embeds `X11Compositor::handle_unmap_notify` (x11_compositor.cpp:494). -/
def handle_unmap_notify (s : CompositorState) (xwin : Nat) : CompositorState :=
  match lookupXwin s xwin with
  | some window_id => updateWindow s window_id (fun w => { w with mapped := false })
  | none => s

/-- The fields of `XConfigureEvent` the handler reads. -/
structure XConfigureEvent where
  x : Int
  y : Int
  width : Int
  height : Int
  deriving Repr, DecidableEq

/-- The mutation `handle_configure_notify` applies to the found window:
store the event geometry and clear `has_image` exactly when the width or
height changed. -/
def applyConfigure (ev : XConfigureEvent) (w : X11Window) : X11Window :=
  let size_changed := !(w.width == ev.width) || !(w.height == ev.height)
  { w with width := ev.width, height := ev.height, x := ev.x, y := ev.y
           has_image := if size_changed then false else w.has_image }

/-- Embeds `X11Compositor::handle_configure_notify` (x11_compositor.cpp:503). -/
def handle_configure_notify (s : CompositorState) (xwin : Nat)
    (ev : XConfigureEvent) : CompositorState :=
  match lookupXwin s xwin with
  | none => s
  | some window_id => updateWindow s window_id (applyConfigure ev)

/-- The scan inside `handle_damage_notify`: walk the id-ordered window
map, and at the first window whose damage handle equals the event's,
issue `XDamageSubtract` (recorded in the second component), clear
`has_image` and break. -/
def damageScan (ws : List X11Window) (dmg : Nat) : List X11Window × List Nat :=
  match ws with
  | [] => ([], [])
  | w :: rest =>
    if w.damage == dmg then
      ({ w with has_image := false } :: rest, [w.damage])
    else
      let r := damageScan rest dmg
      (w :: r.1, r.2)

/-- Embeds `X11Compositor::handle_damage_notify` (x11_compositor.cpp:524).
Second component: the damage handles for which `XDamageSubtract` was sent. -/
def handle_damage_notify (s : CompositorState) (dmg : Nat) :
    CompositorState × List Nat :=
  let r := damageScan s.windows dmg
  ({ s with windows := r.1 }, r.2)

/-- The fields of `XImage` the conversion reads: `bits_per_pixel`,
`bytes_per_line` (the buffer's row stride, which may exceed `width*4`)
and the raw bytes. -/
structure XImage where
  bits_per_pixel : Nat
  bytes_per_line : Nat
  data : List Nat
  deriving Repr, DecidableEq

/-- One pixel of the conversion loop body (x11_compositor.cpp:596): from
source offset `src_idx = y*bytes_per_line + x*bytes_per_pixel` (with
`bytes_per_pixel = 32/8 = 4`), write `[byte2, byte1, byte0, 255]` —
R := source byte 2, G := byte 1, B := byte 0, A := 255. -/
def convertPixel (src : List Nat) (stride x y : Nat) : List Nat :=
  let src_idx := y * stride + x * 4
  [src.getD (src_idx + 2) 0, src.getD (src_idx + 1) 0,
   src.getD src_idx 0, 255]

/-- One output row of the conversion loop (the inner `for x` loop). -/
def convertRow (src : List Nat) (stride width y : Nat) : List Nat :=
  ((List.range width).map (fun x => convertPixel src stride x y)).flatten

/-- The nested conversion loop of `capture_window_contents`
(x11_compositor.cpp:593): row-major RGBA8 output of `width*height*4`
bytes; destination offset of pixel `(x,y)` is `(y*width + x)*4`. -/
def convertImage (src : List Nat) (stride width height : Nat) : List Nat :=
  ((List.range height).map (fun y => convertRow src stride width y)).flatten

/-- Embeds `X11Compositor::capture_window_contents`
(x11_compositor.cpp:540).  The pixel acquisition
(`XCompositeNameWindowPixmap` + `XGetImage`) is an explicit input,
`none` when either call fails.  Returns the updated window record
together with whether a pixel read was attempted (control reached the
pixmap acquisition). -/
def capture_window_contents (composite_available damage_available : Bool)
    (w : X11Window) (acquired : Option XImage) : X11Window × Bool :=
  if !composite_available || !w.mapped then (w, false)
  else if w.has_image && damage_available then (w, false)
  else if w.width ≤ 0 || w.height ≤ 0 then (w, false)
  else
    match acquired with
    | none => (w, true)
    | some image =>
      if image.bits_per_pixel == 32 then
        ({ w with image_data := convertImage image.data image.bytes_per_line
                    w.width.toNat w.height.toNat,
                  has_image := true }, true)
      else (w, true)

/-- The fields of the synthetic `XButtonEvent` that `send_mouse_button`
fills in. -/
structure XButtonEvent where
  press : Bool
  window : Nat
  x : Int
  y : Int
  x_root : Int
  y_root : Int
  state : Nat
  button : Int
  deriving Repr, DecidableEq

/-- Embeds `X11Compositor::send_mouse_button` (x11_compositor.cpp:738).
`translate` stands for `XTranslateCoordinates` against the root window:
it resolves a handle to its absolute (root-relative) origin.  Returns
the injected event, `none` for an unknown id. -/
def send_mouse_button (s : CompositorState) (translate : Nat → Int × Int)
    (window_id button : Int) (pressed : Bool) (x y : Int) :
    Option XButtonEvent :=
  match findWindow s window_id with
  | none => none
  | some w =>
    let origin := translate w.xwindow
    some { press := pressed, window := w.xwindow, x := x, y := y,
           x_root := origin.1 + x, y_root := origin.2 + y,
           state := 0, button := button }

/-- X11 `ShiftMask` modifier bit. -/
def ShiftMask : Nat := 1

/-- X11 `ControlMask` modifier bit. -/
def ControlMask : Nat := 4

/-- X11 `Mod1Mask` (Alt) modifier bit. -/
def Mod1Mask : Nat := 8

/-- The Godot-keycode → X11 keysym switch of `send_key_event`
(x11_compositor.cpp:826), with the default of using the code itself as
the keysym (printable Unicode/ASCII values). -/
def godotToKeysym (godot_keycode : Int) : Int :=
  match godot_keycode with
  | 4194309 => 65293   -- XK_Return
  | 4194308 => 65288   -- XK_BackSpace
  | 4194305 => 65307   -- XK_Escape
  | 4194306 => 65289   -- XK_Tab
  | 32 => 32           -- XK_space
  | 4194319 => 65361   -- XK_Left
  | 4194320 => 65362   -- XK_Up
  | 4194321 => 65363   -- XK_Right
  | 4194322 => 65364   -- XK_Down
  | 4194325 => 65505   -- XK_Shift_L
  | 4194326 => 65507   -- XK_Control_L
  | 4194328 => 65513   -- XK_Alt_L
  | 4194327 => 65511   -- XK_Meta_L
  | 4194332 => 65470   -- XK_F1
  | 4194333 => 65471   -- XK_F2
  | 4194334 => 65472   -- XK_F3
  | 4194335 => 65473   -- XK_F4
  | 4194336 => 65474   -- XK_F5
  | 4194337 => 65475   -- XK_F6
  | 4194338 => 65476   -- XK_F7
  | 4194339 => 65477   -- XK_F8
  | 4194340 => 65478   -- XK_F9
  | 4194341 => 65479   -- XK_F10
  | 4194342 => 65480   -- XK_F11
  | 4194343 => 65481   -- XK_F12
  | 4194312 => 65535   -- XK_Delete
  | 4194311 => 65379   -- XK_Insert
  | 4194313 => 65360   -- XK_Home
  | 4194314 => 65367   -- XK_End
  | 4194315 => 65365   -- XK_Page_Up
  | 4194316 => 65366   -- XK_Page_Down
  | _ => godot_keycode

/-- The fields of the synthetic `XKeyEvent` that `send_key_event` fills
in (coordinates are all zero in the source). -/
structure XKeyEvent where
  press : Bool
  window : Nat
  state : Nat
  keycode : Nat
  deriving Repr, DecidableEq

/-- Embeds `X11Compositor::send_key_event` (x11_compositor.cpp:812).
`keysymToKeycode` stands for `XKeysymToKeycode` on the live connection
(0 = no physical key code).  Takes and returns the process-wide latched
modifier state (a 32-bit mask; `x &&& (4294967295 - m)` is the C
`x &= ~m` for the single-bit masks involved); the second component is
the event sent, `none` when the key is dropped.  The modifier update
happens only after the physical key code check passes. -/
def send_key_event (s : CompositorState) (keysymToKeycode : Int → Nat)
    (modifier_state : Nat) (window_id godot_keycode : Int)
    (pressed : Bool) : Nat × Option XKeyEvent :=
  match findWindow s window_id with
  | none => (modifier_state, none)
  | some w =>
    let keysym := godotToKeysym godot_keycode
    let x11_keycode := keysymToKeycode keysym
    if x11_keycode == 0 then (modifier_state, none)
    else
      let m : Nat :=
        if godot_keycode = 4194325 then
          if pressed then modifier_state ||| ShiftMask
          else modifier_state &&& (4294967295 - ShiftMask)
        else if godot_keycode = 4194326 then
          if pressed then modifier_state ||| ControlMask
          else modifier_state &&& (4294967295 - ControlMask)
        else if godot_keycode = 4194328 ∨ godot_keycode = 4194327 then
          if pressed then modifier_state ||| Mod1Mask
          else modifier_state &&& (4294967295 - Mod1Mask)
        else modifier_state
      (m, some { press := pressed, window := w.xwindow, state := m,
                 keycode := x11_keycode })

/-- One X11 event as routed by the switch in `X11Compositor::_process`
(x11_compositor.cpp:77).  Events that trigger synchronous queries carry
the query results. -/
inductive XEvent where
  | createNotify (xwin : Nat) (q : WindowQueryResult)
  | destroyNotify (xwin : Nat)
  | mapNotify (xwin : Nat) (q : WindowQueryResult)
  | unmapNotify (xwin : Nat)
  | configureNotify (xwin : Nat) (ev : XConfigureEvent)
  | damageNotify (dmg : Nat)
  deriving Repr, DecidableEq

/-- The event switch of `X11Compositor::_process` (x11_compositor.cpp:77):
damage events are only recognized when the damage extension is available. -/
def dispatchEvent (s : CompositorState) : XEvent → CompositorState × List Nat
  | .createNotify xwin q => (handle_create_notify s xwin q, [])
  | .destroyNotify xwin => (handle_destroy_notify s xwin, [])
  | .mapNotify xwin q => (handle_map_notify s xwin q, [])
  | .unmapNotify xwin => (handle_unmap_notify s xwin, [])
  | .configureNotify xwin ev => (handle_configure_notify s xwin ev, [])
  | .damageNotify dmg =>
    if s.damage_available then handle_damage_notify s dmg else (s, [])

/-- A registry mutation: the two operations that create and destroy
entries (`add_window` / `remove_window`). -/
inductive RegistryOp where
  | add (xwin : Nat) (q : WindowQueryResult)
  | remove (xwin : Nat)
  deriving Repr, DecidableEq

/-- Apply one registry operation. -/
def applyOp (s : CompositorState) : RegistryOp → CompositorState
  | .add xwin q => add_window s xwin q
  | .remove xwin => remove_window s xwin

/-- The id issued by one operation: `some` exactly when `add_window`
reaches `next_window_id++`. -/
def issuedId (s : CompositorState) : RegistryOp → Option Int
  | .add xwin q =>
    if (lookupXwin s xwin).isSome then none
    else
      match q.attrs with
      | none => none
      | some _ => some s.next_window_id
  | .remove _ => none

/-- The ids issued along a sequence of registry operations, in order. -/
def issuedIds (s : CompositorState) : List RegistryOp → List Int
  | [] => []
  | op :: ops => (issuedId s op).toList ++ issuedIds (applyOp s op) ops

/-- Embeds `X11Compositor::get_window_ids` (x11_compositor.cpp:624). -/
def get_window_ids (s : CompositorState) : List Int :=
  s.windows.map (·.id)

/-- Embeds `X11Compositor::get_window_pid` (x11_compositor.cpp:700). -/
def get_window_pid (s : CompositorState) (window_id : Int) : Int :=
  match findWindow s window_id with
  | none => -1
  | some w => w.pid

/-- Embeds `X11Compositor::get_parent_window_id` (x11_compositor.cpp:708). -/
def get_parent_window_id (s : CompositorState) (window_id : Int) : Int :=
  match findWindow s window_id with
  | none => -1
  | some w => w.parent_window_id

/-- Embeds `X11Compositor::get_window_class` (x11_compositor.cpp:684). -/
def get_window_class (s : CompositorState) (window_id : Int) : String :=
  match findWindow s window_id with
  | none => ""
  | some w => w.wm_class

/-- Embeds `X11Compositor::get_window_title` (x11_compositor.cpp:692). -/
def get_window_title (s : CompositorState) (window_id : Int) : String :=
  match findWindow s window_id with
  | none => ""
  | some w => w.wm_name

/-- Embeds `X11Compositor::get_window_size` (x11_compositor.cpp:660). -/
def get_window_size (s : CompositorState) (window_id : Int) : Int × Int :=
  match findWindow s window_id with
  | none => (0, 0)
  | some w => (w.width, w.height)

/-- Embeds `X11Compositor::get_window_buffer` (x11_compositor.cpp:632):
the cached bytes, or `none` for an unknown id, an invalid or empty cache,
or non-positive dimensions. -/
def get_window_buffer (s : CompositorState) (window_id : Int) :
    Option (List Nat) :=
  match findWindow s window_id with
  | none => none
  | some w =>
    if !w.has_image || w.image_data.isEmpty then none
    else if w.width ≤ 0 || w.height ≤ 0 then none
    else some w.image_data

/-- State after the constructor and capability probe
(x11_compositor.cpp:20): empty maps, id counter at 1, the probed
extension availability. -/
def initialState (ca da : Bool) : CompositorState :=
  { windows := [], xwindow_to_id := [], next_window_id := 1,
    composite_available := ca, damage_available := da }

/-- Embeds `X11Compositor::scan_existing_windows` (x11_compositor.cpp:299):
add every enumerated child that passes the tracking filter. -/
def scanWindows (s : CompositorState)
    (adds : List (Nat × WindowQueryResult)) : CompositorState :=
  adds.foldl
    (fun acc p =>
      if should_track_window p.2 then add_window acc p.1 p.2 else acc) s

/-- Drain a queue of events through the dispatcher, as one `_process`
tick does. -/
def runEvents (s : CompositorState) (evs : List XEvent) : CompositorState :=
  evs.foldl (fun acc e => (dispatchEvent acc e).1) s

/-- One session: initialize (probe + initial scan), then process the
event stream. -/
def runSession (ca da : Bool) (adds : List (Nat × WindowQueryResult))
    (evs : List XEvent) : CompositorState :=
  runEvents (scanWindows (initialState ca da) adds) evs

/-- Whether a map event for the handle occurs later in the event list
than every unmap event for it (false when neither occurs). -/
def mapMoreRecent (evs : List XEvent) (xwin : Nat) : Bool :=
  evs.foldl
    (fun acc e =>
      match e with
      | XEvent.mapNotify x _ => if x == xwin then true else acc
      | XEvent.unmapNotify x => if x == xwin then false else acc
      | _ => acc)
    false

/-- The claim that the mapped flag of every tracked window equals "a map
event for its handle was observed more recently than any unmap event". -/
def mappedMatchesEventHistory : Prop :=
  ∀ (ca da : Bool) (adds : List (Nat × WindowQueryResult))
    (evs : List XEvent) (w : X11Window),
    w ∈ (runSession ca da adds evs).windows →
    w.mapped = mapMoreRecent evs w.xwindow

/-- A concrete query result: a 20×20 viewable window without `WM_STATE`
(tracked through the viewable branch of the filter). -/
def qViewable : WindowQueryResult :=
  { attrs := some { x := 0, y := 0, width := 20, height := 20,
                    c_class := 1, map_state := IsViewable }
    has_wm_state := false, wm_name := "v", wm_class := "V"
    pid := none, transient_for := none, new_damage := 3 }

/-- The registry pairing invariant: ids key the window map uniquely,
handles key the reverse lookup uniquely, the two maps hold exactly
corresponding entries (each tracked window has exactly one entry in
each), and every stored id is below the id counter. -/
abbrev RegistryInv (s : CompositorState) : Prop :=
  (s.windows.map (·.id)).Nodup ∧
  (s.xwindow_to_id.map (·.1)).Nodup ∧
  (∀ w ∈ s.windows, (w.xwindow, w.id) ∈ s.xwindow_to_id) ∧
  (∀ p ∈ s.xwindow_to_id, ∃ w ∈ s.windows, w.xwindow = p.1 ∧ w.id = p.2) ∧
  (∀ w ∈ s.windows, w.id < s.next_window_id)

/-- A concrete tracked 40×30 window, used in witness instantiations. -/
def wSample : X11Window :=
  { id := 1, xwindow := 9, width := 40, height := 30, x := 2, y := 3,
    damage := 5, mapped := true, image_data := [0], has_image := true,
    wm_class := "c", wm_name := "n", pid := 4, parent_window_id := -1 }

/-- A concrete one-window compositor state, used in witness
instantiations. -/
def sSample : CompositorState :=
  { windows := [wSample], xwindow_to_id := [(9, 1)], next_window_id := 2,
    composite_available := true, damage_available := true }

/-- A concrete configure event that changes only the height of
`wSample`. -/
def evSample : XConfigureEvent :=
  { x := 2, y := 3, width := 40, height := 31 }

/-- The sample state with its window unmapped. -/
def sSampleUnmapped : CompositorState :=
  { sSample with windows := [{ wSample with mapped := false }] }

/-- A concrete mapped 2×2 window with no cached image. -/
def wCap : X11Window :=
  { wSample with width := 2, height := 2, has_image := false }

/-- A concrete 32-bpp 2×2 source image whose row stride (12) exceeds
`width*4` (8): four padding bytes end each row. -/
def imgCap : XImage :=
  { bits_per_pixel := 32, bytes_per_line := 12,
    data := [1, 2, 3, 4, 5, 6, 7, 8, 9, 10, 11, 12,
             13, 14, 15, 16, 17, 18, 19, 20, 21, 22, 23, 24] }

/-- A concrete query result: a 5×20 viewable window carrying `WM_STATE`. -/
def qTiny : WindowQueryResult :=
  { attrs := some { x := 0, y := 0, width := 5, height := 20,
                    c_class := 1, map_state := IsViewable }
    has_wm_state := true, wm_name := "t", wm_class := "T"
    pid := some 7, transient_for := none, new_damage := 0 }

/-- A concrete query result: a 50×20 unmapped `InputOutput` window
carrying `WM_STATE` (a popup-sized managed window). -/
def qPopup : WindowQueryResult :=
  { attrs := some { x := 3, y := 4, width := 50, height := 20,
                    c_class := 1, map_state := 0 }
    has_wm_state := true, wm_name := "p", wm_class := "P"
    pid := none, transient_for := none, new_damage := 0 }

end DrizzleDE

namespace DrizzleDE

/-- **C2.** The tracking filter: (i) any window with width < 10 or
height < 10 is rejected whatever its other attributes; (ii) a non-input-only
50×20 window carrying the window-state property is accepted; (iii) a window
is accepted only if it is not input-only, both dimensions are ≥ 10, and it
either carries the window-state property or is currently viewable. -/
theorem C2_should_track_filter (q : WindowQueryResult) :
    (∀ a : XWindowAttributes, q.attrs = some a →
      (a.width < 10 ∨ a.height < 10) → should_track_window q = false)
  ∧ (∀ a : XWindowAttributes, q.attrs = some a →
      a.c_class ≠ InputOnly → a.width = 50 → a.height = 20 →
      q.has_wm_state = true → should_track_window q = true)
  ∧ (should_track_window q = true →
      ∃ a : XWindowAttributes, q.attrs = some a ∧ a.c_class ≠ InputOnly ∧
        10 ≤ a.width ∧ 10 ≤ a.height ∧
        (q.has_wm_state = true ∨ a.map_state = IsViewable)) := by
  refine ⟨?_, ?_, ?_⟩
  · intro a ha hsmall
    rcases hsmall with h | h <;> simp [should_track_window, ha, h]
  · intro a ha hclass hw hh hwm
    simp only [should_track_window, ha]
    rw [if_neg (by simpa using hclass), if_neg (by simp [hw, hh]), if_pos hwm]
  · intro htrack
    cases hq : q.attrs with
    | none => simp [should_track_window, hq] at htrack
    | some a =>
      refine ⟨a, rfl, ?_⟩
      simp only [should_track_window, hq] at htrack
      by_cases hclass : a.c_class == InputOnly
      · rw [if_pos hclass] at htrack; exact absurd htrack (by simp)
      · rw [if_neg hclass] at htrack
        by_cases hsmall : (a.width < 10 || a.height < 10)
        · rw [if_pos hsmall] at htrack; exact absurd htrack (by simp)
        · rw [if_neg hsmall] at htrack
          simp only [Bool.or_eq_true, decide_eq_true_eq, not_or, Bool.not_eq_true] at hsmall
          rcases hsmall with ⟨hw, hh⟩
          refine ⟨by simpa using hclass, by omega, by omega, ?_⟩
          by_cases hwm : q.has_wm_state
          · exact Or.inl hwm
          · rw [if_neg hwm] at htrack
            exact Or.inr (by simpa using htrack)

/-- Concrete instances of the filter theorem: the 5×20 window is rejected,
the 50×20 managed popup is accepted. -/
theorem C2_should_track_filter_witness :
    should_track_window qTiny = false ∧ should_track_window qPopup = true :=
  ⟨(C2_should_track_filter qTiny).1 _ rfl (Or.inl (by decide)),
   (C2_should_track_filter qPopup).2.1 _ rfl (by decide) rfl rfl rfl⟩

/-- `next_window_id` never decreases under a registry operation. -/
theorem next_window_id_le_applyOp (s : CompositorState) (op : RegistryOp) :
    s.next_window_id ≤ (applyOp s op).next_window_id := by
  cases op with
  | add xwin q =>
    simp only [applyOp, add_window]
    split
    · exact le_refl _
    · split
      · exact le_refl _
      · show s.next_window_id ≤ s.next_window_id + 1
        omega
  | remove xwin =>
    simp only [applyOp, remove_window]
    split
    · exact le_refl _
    · exact le_refl _

/-- When an operation issues an id, the id is the current counter and the
counter advances by exactly one. -/
theorem issuedId_eq_some (s : CompositorState) (op : RegistryOp) (n : Int)
    (h : issuedId s op = some n) :
    n = s.next_window_id ∧
      (applyOp s op).next_window_id = s.next_window_id + 1 := by
  cases op with
  | add xwin q =>
    simp only [issuedId] at h
    by_cases hlk : (lookupXwin s xwin).isSome
    · rw [if_pos hlk] at h
      exact absurd h (by simp)
    · rw [if_neg hlk] at h
      cases hq : q.attrs with
      | none =>
        rw [hq] at h
        exact absurd h (by simp)
      | some attrs =>
        rw [hq] at h
        refine ⟨by simpa using h.symm, ?_⟩
        simp only [applyOp, add_window, if_neg hlk, hq]
  | remove xwin => simp [issuedId] at h

/-- Every id issued along a run is at least the starting counter value. -/
theorem issuedIds_lower_bound (ops : List RegistryOp) :
    ∀ (s : CompositorState) (i : Int),
      i ∈ issuedIds s ops → s.next_window_id ≤ i := by
  induction ops with
  | nil =>
    intro s i h
    simp [issuedIds] at h
  | cons op ops ih =>
    intro s i h
    simp only [issuedIds, List.mem_append] at h
    rcases h with h | h
    · cases hop : issuedId s op with
      | none => rw [hop] at h; simp at h
      | some n =>
        rw [hop] at h
        simp at h
        subst h
        exact le_of_eq (issuedId_eq_some s op i hop).1.symm
    · calc s.next_window_id ≤ (applyOp s op).next_window_id :=
            next_window_id_le_applyOp s op
        _ ≤ i := ih (applyOp s op) i h

/-- **C3.** Along any sequence of add/remove operations, the ids issued by
successive successful adds are pairwise strictly increasing — so strictly
increasing in order, and never reused even after a removal. -/
theorem C3_issued_ids_strictly_increasing (s : CompositorState)
    (ops : List RegistryOp) :
    List.Pairwise (· < ·) (issuedIds s ops) := by
  induction ops generalizing s with
  | nil => simp [issuedIds]
  | cons op ops ih =>
    simp only [issuedIds]
    cases hop : issuedId s op with
    | none => simpa using ih (applyOp s op)
    | some n =>
      simp only [Option.toList_some, List.singleton_append]
      refine List.Pairwise.cons ?_ (ih (applyOp s op))
      intro i hi
      have h1 := issuedIds_lower_bound ops (applyOp s op) i hi
      have h2 := issuedId_eq_some s op n hop
      omega

/-- `find?` by id commutes with the id-preserving pointwise update that
`updateWindow` performs on the window map. -/
theorem find?_map_update (l : List X11Window) (window_id : Int)
    (f : X11Window → X11Window) (hid : ∀ w, (f w).id = w.id) (target : Int) :
    (l.map (fun w => if w.id == window_id then f w else w)).find?
        (fun w => w.id == target) =
      (l.find? (fun w => w.id == target)).map
        (fun w => if w.id == window_id then f w else w) := by
  induction l with
  | nil => rfl
  | cons w rest ih =>
    have himg : ((if w.id == window_id then f w else w).id == target)
        = (w.id == target) := by
      split
      · rw [hid]
      · rfl
    by_cases hw : (w.id == target) = true
    · rw [List.map_cons,
        List.find?_cons_of_pos (p := fun u : X11Window => u.id == target) _
          (himg.trans hw),
        List.find?_cons_of_pos (p := fun u : X11Window => u.id == target) _ hw]
      rfl
    · rw [List.map_cons,
        List.find?_cons_of_neg (p := fun u : X11Window => u.id == target) _
          (by
            show ¬((if w.id == window_id then f w else w).id == target) = true
            rw [himg]; exact hw),
        List.find?_cons_of_neg (p := fun u : X11Window => u.id == target) _ hw,
        ih]

/-- `findWindow` after `updateWindow`, in terms of `findWindow` before. -/
theorem findWindow_updateWindow (s : CompositorState) (window_id : Int)
    (f : X11Window → X11Window) (hid : ∀ w, (f w).id = w.id) (target : Int) :
    findWindow (updateWindow s window_id f) target =
      (findWindow s target).map
        (fun w => if w.id == window_id then f w else w) :=
  find?_map_update s.windows window_id f hid target

/-- **C4.** A configure event on a tracked window with a changed width or
height stores the new geometry and clears `has_image`; one with identical
width and height updates only the position and leaves `has_image` as it
was. -/
theorem C4_configure_resize_invalidates (s : CompositorState) (xwin : Nat)
    (ev : XConfigureEvent) (w : X11Window)
    (hlk : lookupXwin s xwin = some w.id)
    (hfind : findWindow s w.id = some w) :
    ((ev.width ≠ w.width ∨ ev.height ≠ w.height) →
      findWindow (handle_configure_notify s xwin ev) w.id =
        some { w with width := ev.width, height := ev.height,
                      x := ev.x, y := ev.y, has_image := false })
  ∧ (ev.width = w.width → ev.height = w.height →
      findWindow (handle_configure_notify s xwin ev) w.id =
        some { w with x := ev.x, y := ev.y }) := by
  have hstep : findWindow (handle_configure_notify s xwin ev) w.id =
      some (applyConfigure ev w) := by
    simp only [handle_configure_notify, hlk]
    rw [findWindow_updateWindow s w.id (applyConfigure ev) (fun u => rfl) w.id,
      hfind]
    simp
  constructor
  · intro hne
    rw [hstep]
    have hsz : (!(w.width == ev.width) || !(w.height == ev.height)) = true := by
      rcases hne with h | h
      · have hne' : w.width ≠ ev.width := fun hc => h hc.symm
        simp [hne']
      · have hne' : w.height ≠ ev.height := fun hc => h hc.symm
        simp [hne']
    simp [applyConfigure, hsz]
  · intro hw hh
    rw [hstep]
    simp [applyConfigure, ← hw, ← hh]

/-- A concrete instance of the configure theorem: the 40×30 tracked window
receives a configure with height 31, and its `has_image` flag is cleared
while the geometry is stored. -/
theorem C4_configure_resize_invalidates_witness :
    findWindow (handle_configure_notify sSample 9 evSample) 1 =
      some { wSample with height := 31, has_image := false } :=
  (C4_configure_resize_invalidates sSample 9 evSample wSample
      (by decide) (by decide)).1 (Or.inr (by decide))

/-- The damage scan walks past non-matching windows and stops at the first
match, clearing only its `has_image` and issuing one subtract. -/
theorem damageScan_append (pre : List X11Window) (w : X11Window)
    (post : List X11Window) (dmg : Nat)
    (hpre : ∀ u ∈ pre, u.damage ≠ dmg) (hw : w.damage = dmg) :
    damageScan (pre ++ w :: post) dmg =
      (pre ++ { w with has_image := false } :: post, [dmg]) := by
  induction pre with
  | nil =>
    simp only [List.nil_append, damageScan]
    rw [if_pos (by simpa using hw), hw]
  | cons u pre ih =>
    simp only [List.cons_append, damageScan, List.append_eq]
    rw [if_neg (by simpa using hpre u (by simp)),
      ih (fun v hv => hpre v (by simp [hv]))]

/-- **C7.** With damage tracking enabled, a damage event whose handle
matches one tracked window (no earlier window in map order has that
handle) clears `has_image` for exactly that window and issues exactly one
damage-subtract for it; every other window's record — flag, buffer,
geometry — and the rest of the state are unchanged. -/
theorem C7_damage_clears_exactly_one (s : CompositorState) (dmg : Nat)
    (pre post : List X11Window) (w : X11Window)
    (hsplit : s.windows = pre ++ w :: post)
    (hpre : ∀ u ∈ pre, u.damage ≠ dmg)
    (hw : w.damage = dmg)
    (hda : s.damage_available = true) :
    dispatchEvent s (XEvent.damageNotify dmg) =
      ({ s with windows := pre ++ { w with has_image := false } :: post },
       [dmg]) := by
  simp only [dispatchEvent, hda, if_true, handle_damage_notify, hsplit,
    damageScan_append pre w post dmg hpre hw]

/-- A concrete instance of the damage theorem: in the one-window sample
state a damage event for handle 5 clears the window's `has_image` and
acknowledges with one subtract. -/
theorem C7_damage_clears_exactly_one_witness :
    dispatchEvent sSample (XEvent.damageNotify 5) =
      ({ sSample with windows := [{ wSample with has_image := false }] },
       [5]) :=
  C7_damage_clears_exactly_one sSample 5 [] [] wSample (by decide)
    (fun u hu => absurd hu (List.not_mem_nil u)) (by decide) (by decide)

/-- **C5.** Capture is a no-op — record unchanged, no pixel read attempted
— when compositing is unavailable, or the window is unmapped, or a
dimension is non-positive, or the image is already valid while damage
tracking is available; and with damage tracking unavailable, capture of a
mapped positively-sized window attempts the pixel read even when
`has_image` is true. -/
theorem C5_capture_guards (ca da : Bool) (w : X11Window)
    (acq : Option XImage) :
    ((ca = false ∨ w.mapped = false ∨ w.width ≤ 0 ∨ w.height ≤ 0 ∨
        (w.has_image = true ∧ da = true)) →
      capture_window_contents ca da w acq = (w, false))
  ∧ (da = false → ca = true → w.mapped = true → 0 < w.width →
      0 < w.height → (capture_window_contents ca da w acq).2 = true) := by
  constructor
  · intro h
    unfold capture_window_contents
    split
    · rfl
    · split
      · rfl
      · split
        · rfl
        · rename_i hg1 hg2 hg3
          exfalso
          rcases h with h | h | h | h | ⟨h1, h2⟩ <;> simp_all
  · intro hda hca hm hw hh
    unfold capture_window_contents
    rw [if_neg (by simp [hca, hm]), if_neg (by simp [hda]),
      if_neg (by simp only [Bool.or_eq_true, decide_eq_true_eq]; omega)]
    cases acq with
    | none => rfl
    | some image =>
      split
      · rfl
      · split <;> rfl

/-- Concrete instances of the capture-guard theorem: capturing the sample
window (valid image, damage tracking on) leaves it untouched with no
read; the same capture with damage tracking off attempts the read. -/
theorem C5_capture_guards_witness :
    capture_window_contents true true wSample (some imgCap) =
      (wSample, false)
  ∧ (capture_window_contents true false wSample (some imgCap)).2 = true :=
  ⟨(C5_capture_guards true true wSample (some imgCap)).1
      (Or.inr (Or.inr (Or.inr (Or.inr ⟨rfl, rfl⟩)))),
   (C5_capture_guards true false wSample (some imgCap)).2 rfl rfl rfl
      (by decide) (by decide)⟩

/-- Indexing into the flatten of a list of equal-length blocks: element
`i*k + j` is element `j` of block `i`. -/
theorem flatten_getElem?_const (L : List (List Nat)) (k : Nat)
    (hk : ∀ l ∈ L, l.length = k) (i j : Nat) (hj : j < k) :
    L.flatten[i * k + j]? = L[i]?.bind (fun l => l[j]?) := by
  induction L generalizing i with
  | nil => simp
  | cons l L ih =>
    have hl : l.length = k := hk l (by simp)
    cases i with
    | zero =>
      rw [List.flatten_cons, Nat.zero_mul, Nat.zero_add,
        List.getElem?_append_left (by rw [hl]; exact hj)]
      simp
    | succ i =>
      have hsucc : (i + 1) * k + j = l.length + (i * k + j) := by
        rw [hl]; ring
      rw [List.flatten_cons, hsucc, List.getElem?_append_right (by omega),
        Nat.add_sub_cancel_left, ih (fun u hu => hk u (by simp [hu])) i]
      simp

/-- Each output row of the conversion has `width*4` bytes. -/
theorem convertRow_length (src : List Nat) (stride width y : Nat) :
    (convertRow src stride width y).length = width * 4 := by
  induction width with
  | zero => rfl
  | succ n ih =>
    unfold convertRow at ih ⊢
    rw [List.range_succ, List.map_append, List.flatten_append,
      List.length_append, ih]
    simp [convertPixel]
    ring

/-- Byte `c` of output pixel `(x,y)` sits at offset `(y*width+x)*4 + c`
and equals byte `c` of the converted pixel. -/
theorem convertImage_getElem? (src : List Nat)
    (stride width height x y c : Nat)
    (hx : x < width) (hy : y < height) (hc : c < 4) :
    (convertImage src stride width height)[(y * width + x) * 4 + c]? =
      (convertPixel src stride x y)[c]? := by
  have harith : (y * width + x) * 4 + c = y * (width * 4) + (x * 4 + c) := by
    ring
  unfold convertImage
  rw [harith,
    flatten_getElem?_const _ (width * 4)
      (by
        intro l hl
        simp only [List.mem_map, List.mem_range] at hl
        obtain ⟨y', _, rfl⟩ := hl
        exact convertRow_length src stride width y')
      y (x * 4 + c) (by omega),
    List.getElem?_map, List.getElem?_range hy]
  show (convertRow src stride width y)[x * 4 + c]? =
    (convertPixel src stride x y)[c]?
  unfold convertRow
  rw [flatten_getElem?_const _ 4
      (by
        intro l hl
        simp only [List.mem_map, List.mem_range] at hl
        obtain ⟨x', _, rfl⟩ := hl
        rfl)
      x c hc,
    List.getElem?_map, List.getElem?_range hx]
  rfl

/-- **C1.** Whenever capture proceeds on a 32-bit-per-pixel source image,
the converted output places pixel `(x,y)` at byte offset `(y*width+x)*4`,
reading the source at `y*bytes_per_line + x*4` (the buffer's row stride,
not `width*4`), with R := source byte 2, G := source byte 1,
B := source byte 0 and A forced to 255. -/
theorem C1_capture_pixel_conversion (ca da : Bool) (w : X11Window)
    (image : XImage)
    (hca : ca = true) (hm : w.mapped = true)
    (hguard : w.has_image = false ∨ da = false)
    (hw : 0 < w.width) (hh : 0 < w.height)
    (hbpp : image.bits_per_pixel = 32) :
    (capture_window_contents ca da w (some image)).1.has_image = true ∧
    ∀ x y : Nat, x < w.width.toNat → y < w.height.toNat →
      (capture_window_contents ca da w
            (some image)).1.image_data[(y * w.width.toNat + x) * 4]? =
          some (image.data.getD (y * image.bytes_per_line + x * 4 + 2) 0)
      ∧ (capture_window_contents ca da w
            (some image)).1.image_data[(y * w.width.toNat + x) * 4 + 1]? =
          some (image.data.getD (y * image.bytes_per_line + x * 4 + 1) 0)
      ∧ (capture_window_contents ca da w
            (some image)).1.image_data[(y * w.width.toNat + x) * 4 + 2]? =
          some (image.data.getD (y * image.bytes_per_line + x * 4) 0)
      ∧ (capture_window_contents ca da w
            (some image)).1.image_data[(y * w.width.toNat + x) * 4 + 3]? =
          some 255 := by
  have h2 : (w.has_image && da) = false := by
    rcases hguard with h | h <;> simp [h]
  have h3 : (decide (w.width ≤ 0) || decide (w.height ≤ 0)) = false := by
    rw [Bool.or_eq_false_iff]
    constructor <;> rw [decide_eq_false_iff_not] <;> omega
  have hstep : capture_window_contents ca da w (some image) =
      ({ w with
          image_data := convertImage image.data image.bytes_per_line
            w.width.toNat w.height.toNat,
          has_image := true }, true) := by
    unfold capture_window_contents
    rw [if_neg (by simp [hca, hm]), if_neg (by simp [h2]),
      if_neg (by simp [h3])]
    simp [hbpp]
  rw [hstep]
  refine ⟨rfl, ?_⟩
  intro x y hx hy
  refine ⟨?_, ?_, ?_, ?_⟩
  · have h := convertImage_getElem? image.data image.bytes_per_line
      w.width.toNat w.height.toNat x y 0 hx hy (by omega)
    simpa [convertPixel] using h
  · have h := convertImage_getElem? image.data image.bytes_per_line
      w.width.toNat w.height.toNat x y 1 hx hy (by omega)
    simpa [convertPixel] using h
  · have h := convertImage_getElem? image.data image.bytes_per_line
      w.width.toNat w.height.toNat x y 2 hx hy (by omega)
    simpa [convertPixel] using h
  · have h := convertImage_getElem? image.data image.bytes_per_line
      w.width.toNat w.height.toNat x y 3 hx hy (by omega)
    simpa [convertPixel] using h

/-- A concrete instance of the conversion theorem on the strided 2×2
sample image: pixel (1,0) — red byte from source offset 6, alpha forced
to 255. -/
theorem C1_capture_pixel_conversion_witness :
    (capture_window_contents true true wCap
        (some imgCap)).1.image_data[4]? = some (imgCap.data.getD 6 0)
  ∧ (capture_window_contents true true wCap
        (some imgCap)).1.image_data[7]? = some 255 := by
  have h := (C1_capture_pixel_conversion true true wCap imgCap rfl rfl
      (Or.inl rfl) (by decide) (by decide) rfl).2 1 0 (by decide) (by decide)
  exact ⟨h.1, h.2.2.2⟩

/-- **C6.** A mouse button injection on a tracked window carries the
caller-local coordinates as window-relative coordinates and the window's
root-relative origin plus the local coordinates as absolute
coordinates. -/
theorem C6_mouse_button_coordinates (s : CompositorState)
    (translate : Nat → Int × Int) (window_id button : Int) (pressed : Bool)
    (x y : Int) (w : X11Window)
    (hfind : findWindow s window_id = some w) :
    send_mouse_button s translate window_id button pressed x y =
      some { press := pressed, window := w.xwindow, x := x, y := y,
             x_root := (translate w.xwindow).1 + x,
             y_root := (translate w.xwindow).2 + y,
             state := 0, button := button } := by
  simp [send_mouse_button, hfind]

/-- A concrete instance of the coordinate theorem: a window whose origin
resolves to (100,50) receives a press at local (10,10) with absolute
coordinates (110,60). -/
theorem C6_mouse_button_coordinates_witness :
    send_mouse_button sSample (fun _ => ((100 : Int), (50 : Int)))
        1 1 true 10 10 =
      some { press := true, window := 9, x := 10, y := 10,
             x_root := 110, y_root := 60, state := 0, button := 1 } := by
  rw [C6_mouse_button_coordinates sSample (fun _ => ((100 : Int), (50 : Int)))
    1 1 true 10 10 wSample (by decide)]
  decide

/-- **C10.** When the abstract key code of a key injection on a tracked
window resolves to a keysym with no physical key code, nothing is sent
and the latched modifier state is returned unchanged — the modifier
update is sequenced after the physical key code check. -/
theorem C10_dropped_key_leaves_modifiers (s : CompositorState)
    (keysymToKeycode : Int → Nat) (modifier_state : Nat)
    (window_id godot_keycode : Int) (pressed : Bool) (w : X11Window)
    (hfind : findWindow s window_id = some w)
    (hdrop : keysymToKeycode (godotToKeysym godot_keycode) = 0) :
    send_key_event s keysymToKeycode modifier_state window_id
      godot_keycode pressed = (modifier_state, none) := by
  simp [send_key_event, hfind, hdrop]

/-- A concrete instance of the dropped-key theorem: a shift press whose
keysym has no physical key code leaves modifier state 5 unchanged and
sends nothing. -/
theorem C10_dropped_key_leaves_modifiers_witness :
    send_key_event sSample (fun _ => 0) 5 1 4194325 true = (5, none) :=
  C10_dropped_key_leaves_modifiers sSample (fun _ => 0) 5 1 4194325 true
    wSample (by decide) rfl

/-- A successful reverse lookup means the pair is in the reverse map. -/
theorem lookupXwin_mem (s : CompositorState) (xwin : Nat) (wid : Int)
    (h : lookupXwin s xwin = some wid) : (xwin, wid) ∈ s.xwindow_to_id := by
  unfold lookupXwin at h
  cases hf : s.xwindow_to_id.find? (fun p => p.1 == xwin) with
  | none => rw [hf] at h; exact absurd h (by simp)
  | some p =>
    rw [hf] at h
    have hmem := List.mem_of_find?_eq_some hf
    have hp := List.find?_some hf
    obtain ⟨a, b⟩ := p
    have hb : b = wid := by simpa using h
    have ha : a = xwin := by simpa using hp
    subst hb
    subst ha
    exact hmem

/-- A failed reverse lookup means no entry has that handle as key. -/
theorem lookupXwin_eq_none (s : CompositorState) (xwin : Nat) :
    lookupXwin s xwin = none ↔ ∀ p ∈ s.xwindow_to_id, p.1 ≠ xwin := by
  unfold lookupXwin
  rw [Option.map_eq_none', List.find?_eq_none]
  simp

/-- `add_window` preserves the registry pairing invariant. -/
theorem RegistryInv_add (s : CompositorState) (xwin : Nat)
    (q : WindowQueryResult) (hinv : RegistryInv s) :
    RegistryInv (add_window s xwin q) := by
  obtain ⟨h1, h2, h3, h4, h5⟩ := hinv
  unfold add_window
  by_cases hlk : (lookupXwin s xwin).isSome
  · rw [if_pos hlk]
    exact ⟨h1, h2, h3, h4, h5⟩
  · rw [if_neg hlk]
    cases hq : q.attrs with
    | none => exact ⟨h1, h2, h3, h4, h5⟩
    | some attrs =>
      have hnone : lookupXwin s xwin = none :=
        Option.not_isSome_iff_eq_none.mp (by simpa using hlk)
      have hkeys := (lookupXwin_eq_none s xwin).mp hnone
      refine ⟨?_, ?_, ?_, ?_, ?_⟩
      · dsimp only
        rw [List.map_append]
        refine h1.append (by simp) ?_
        intro a ha hb
        simp only [List.map_cons, List.map_nil, List.mem_cons,
          List.not_mem_nil, or_false, mkWindow] at hb
        simp only [List.mem_map] at ha
        obtain ⟨w, hw, hwid⟩ := ha
        have := h5 w hw
        omega
      · dsimp only
        rw [List.map_append]
        refine h2.append (by simp) ?_
        intro a ha hb
        simp only [List.map_cons, List.map_nil, List.mem_cons,
          List.not_mem_nil, or_false] at hb
        simp only [List.mem_map] at ha
        obtain ⟨pq, hpq, hpq1⟩ := ha
        exact hkeys pq hpq (by rw [hpq1, hb])
      · intro w hw
        dsimp only at hw ⊢
        rcases List.mem_append.mp hw with hw | hw
        · exact List.mem_append_left _ (h3 w hw)
        · simp only [List.mem_cons, List.not_mem_nil, or_false] at hw
          subst hw
          exact List.mem_append_right _ (by simp [mkWindow])
      · intro p hp
        dsimp only at hp ⊢
        rcases List.mem_append.mp hp with hp | hp
        · obtain ⟨w, hwmem, hwx, hwid⟩ := h4 p hp
          exact ⟨w, List.mem_append_left _ hwmem, hwx, hwid⟩
        · simp only [List.mem_cons, List.not_mem_nil, or_false] at hp
          subst hp
          exact ⟨mkWindow s xwin q attrs,
            List.mem_append_right _ (by simp), rfl, rfl⟩
      · intro w hw
        dsimp only at hw ⊢
        rcases List.mem_append.mp hw with hw | hw
        · have := h5 w hw
          omega
        · simp only [List.mem_cons, List.not_mem_nil, or_false] at hw
          subst hw
          simp [mkWindow]

/-- `remove_window` preserves the registry pairing invariant. -/
theorem RegistryInv_remove (s : CompositorState) (xwin : Nat)
    (hinv : RegistryInv s) : RegistryInv (remove_window s xwin) := by
  obtain ⟨h1, h2, h3, h4, h5⟩ := hinv
  unfold remove_window
  cases hlk : lookupXwin s xwin with
  | none => exact ⟨h1, h2, h3, h4, h5⟩
  | some wid =>
    have hpair := lookupXwin_mem s xwin wid hlk
    refine ⟨?_, ?_, ?_, ?_, ?_⟩
    · exact h1.sublist ((List.filter_sublist s.windows).map _)
    · exact h2.sublist ((List.filter_sublist s.xwindow_to_id).map _)
    · intro w hw
      obtain ⟨hwmem, hwkeep⟩ := List.mem_filter.mp hw
      have hne : w.id ≠ wid := by simpa using hwkeep
      have hx : w.xwindow ≠ xwin := by
        intro hEq
        have hin : (xwin, w.id) ∈ s.xwindow_to_id := hEq ▸ h3 w hwmem
        have hpe := List.inj_on_of_nodup_map h2 hin hpair rfl
        exact hne (by simpa using congrArg Prod.snd hpe)
      exact List.mem_filter.mpr ⟨h3 w hwmem, by simpa using hx⟩
    · intro p hp
      obtain ⟨hpmem, hpkeep⟩ := List.mem_filter.mp hp
      have hpx : p.1 ≠ xwin := by simpa using hpkeep
      obtain ⟨w, hwmem, hwx, hwid⟩ := h4 p hpmem
      obtain ⟨w', hw'mem, hw'x, hw'id⟩ := h4 (xwin, wid) hpair
      have hne : w.id ≠ wid := by
        intro hEq
        have heqw : w = w' :=
          List.inj_on_of_nodup_map h1 hwmem hw'mem (by simp [hEq, hw'id])
        apply hpx
        rw [← hwx, heqw, hw'x]
      exact ⟨w, List.mem_filter.mpr ⟨hwmem, by simpa using hne⟩, hwx, hwid⟩
    · intro w hw
      exact h5 w (List.mem_filter.mp hw).1

/-- **C8.** (i) Removing a tracked handle erases both map entries: the id
leaves the id snapshot, the reverse lookup no longer resolves the handle,
and every per-id accessor returns its absent or -1 sentinel.  (ii) `add`
and
`remove` maintain the registry and the reverse lookup together: the
pairing invariant — exactly one registry entry and one reverse-lookup
entry per tracked window — is preserved by every operation. -/
theorem C8_remove_erases_and_registry_paired (s : CompositorState)
    (xwin : Nat) (wid : Int) (op : RegistryOp) :
    (lookupXwin s xwin = some wid →
      wid ∉ get_window_ids (remove_window s xwin)
      ∧ lookupXwin (remove_window s xwin) xwin = none
      ∧ findWindow (remove_window s xwin) wid = none
      ∧ get_window_pid (remove_window s xwin) wid = -1
      ∧ get_parent_window_id (remove_window s xwin) wid = -1
      ∧ get_window_class (remove_window s xwin) wid = ""
      ∧ get_window_title (remove_window s xwin) wid = ""
      ∧ get_window_size (remove_window s xwin) wid = (0, 0)
      ∧ get_window_buffer (remove_window s xwin) wid = none)
  ∧ (RegistryInv s → RegistryInv (applyOp s op)) := by
  constructor
  · intro hlk
    have hrw : remove_window s xwin =
        { s with
          windows := s.windows.filter (fun w => !(w.id == wid)),
          xwindow_to_id :=
            s.xwindow_to_id.filter (fun p => !(p.1 == xwin)) } := by
      unfold remove_window
      rw [hlk]
    have hfw : findWindow (remove_window s xwin) wid = none := by
      rw [hrw]
      unfold findWindow
      rw [List.find?_eq_none]
      intro w hw
      simpa using (List.mem_filter.mp hw).2
    refine ⟨?_, ?_, hfw, by simp [get_window_pid, hfw],
      by simp [get_parent_window_id, hfw], by simp [get_window_class, hfw],
      by simp [get_window_title, hfw], by simp [get_window_size, hfw],
      by simp [get_window_buffer, hfw]⟩
    · rw [hrw]
      simp only [get_window_ids, List.mem_map, List.mem_filter]
      rintro ⟨w, ⟨_, hkeep⟩, hw⟩
      simp [hw] at hkeep
    · rw [hrw]
      unfold lookupXwin
      rw [Option.map_eq_none', List.find?_eq_none]
      intro p hp
      simpa using (List.mem_filter.mp hp).2
  · intro hinv
    cases op with
    | add xwin' q => exact RegistryInv_add s xwin' q hinv
    | remove xwin' => exact RegistryInv_remove s xwin' hinv

/-- A concrete instance of the removal theorem: removing handle 9 from
the sample state erases id 1 from the snapshot and sends the pid
accessor to -1, and the pairing invariant holds after the operation. -/
theorem C8_remove_erases_and_registry_paired_witness :
    (1 : Int) ∉ get_window_ids (remove_window sSample 9)
  ∧ get_window_pid (remove_window sSample 9) 1 = -1
  ∧ RegistryInv (applyOp sSample (RegistryOp.remove 9)) := by
  have h := C8_remove_erases_and_registry_paired sSample 9 1
    (RegistryOp.remove 9)
  have h1 := h.1 (by decide)
  exact ⟨h1.1, h1.2.2.2.1, h.2 (by decide)⟩

/-- The damage scan never touches any window's mapped flag. -/
theorem damageScan_map_mapped (ws : List X11Window) (dmg : Nat) :
    ((damageScan ws dmg).1).map (·.mapped) = ws.map (·.mapped) := by
  induction ws with
  | nil => rfl
  | cons w rest ih =>
    unfold damageScan
    split
    · rfl
    · simp only [List.map_cons, ih]

/-- **C9, counterexample.** The mapped flag is not equivalent to "a map
event was observed more recently than any unmap event": a viewable window
added by the initial scan has `mapped = true` with no events processed at
all — the initial value comes from the synchronously queried map state,
not from the event stream. -/
theorem C9_counterexample_initial_scan : ¬ mappedMatchesEventHistory := by
  intro h
  have hmem : mkWindow (initialState true true) 5 qViewable
      { x := 0, y := 0, width := 20, height := 20, c_class := 1,
        map_state := IsViewable } ∈
      (runSession true true [(5, qViewable)] []).windows := by decide
  exact absurd (h true true [(5, qViewable)] [] _ hmem) (by decide)

/-- **C9, amended.** After a window is created — with `mapped` initialized
from the synchronously queried map state, not from events — the flag is
changed only by map and unmap events for the window's handle: a map event
sets it true, an unmap event sets it false, and configure and damage
events leave every window's mapped flag unchanged. -/
theorem C9_amended_mapped_driven_by_events (s : CompositorState)
    (xwin : Nat) (q : WindowQueryResult) (ev : XConfigureEvent) (dmg : Nat)
    (wid : Int) (w : X11Window) (attrs : XWindowAttributes) :
    (lookupXwin s xwin = some wid → findWindow s wid = some w →
      findWindow (handle_map_notify s xwin q) wid =
        some { w with mapped := true })
  ∧ (lookupXwin s xwin = some wid → findWindow s wid = some w →
      findWindow (handle_unmap_notify s xwin) wid =
        some { w with mapped := false })
  ∧ (handle_configure_notify s xwin ev).windows.map (·.mapped) =
      s.windows.map (·.mapped)
  ∧ ((handle_damage_notify s dmg).1).windows.map (·.mapped) =
      s.windows.map (·.mapped)
  ∧ (mkWindow s xwin q attrs).mapped = (attrs.map_state == IsViewable) := by
  refine ⟨?_, ?_, ?_, ?_, rfl⟩
  · intro hlk hfind
    have hfind' : s.windows.find? (fun u => u.id == wid) = some w := hfind
    have hwid := List.find?_some hfind'
    simp only [handle_map_notify, hlk]
    rw [findWindow_updateWindow s wid (fun u => { u with mapped := true })
      (fun u => rfl) wid, hfind]
    simp only [Option.map_some']
    rw [if_pos hwid]
  · intro hlk hfind
    have hfind' : s.windows.find? (fun u => u.id == wid) = some w := hfind
    have hwid := List.find?_some hfind'
    simp only [handle_unmap_notify, hlk]
    rw [findWindow_updateWindow s wid (fun u => { u with mapped := false })
      (fun u => rfl) wid, hfind]
    simp only [Option.map_some']
    rw [if_pos hwid]
  · unfold handle_configure_notify
    cases lookupXwin s xwin with
    | none => rfl
    | some wid' =>
      unfold updateWindow
      dsimp only
      rw [List.map_map]
      refine List.map_congr_left ?_
      intro a _
      dsimp only [Function.comp]
      split <;> rfl
  · unfold handle_damage_notify
    exact damageScan_map_mapped s.windows dmg

/-- Concrete instances of the amended theorem: a map event maps the
unmapped sample window, an unmap event unmaps the mapped one. -/
theorem C9_amended_mapped_driven_by_events_witness :
    findWindow (handle_map_notify sSampleUnmapped 9 qPopup) 1 =
      some { wSample with mapped := true }
  ∧ findWindow (handle_unmap_notify sSample 9) 1 =
      some { wSample with mapped := false } :=
  ⟨(C9_amended_mapped_driven_by_events sSampleUnmapped 9 qPopup evSample 5 1
      { wSample with mapped := false } ⟨0, 0, 0, 0, 0, 0⟩).1
      (by decide) (by decide),
   (C9_amended_mapped_driven_by_events sSample 9 qPopup evSample 5 1
      wSample ⟨0, 0, 0, 0, 0, 0⟩).2.1 (by decide) (by decide)⟩

end DrizzleDE
